import Mathlib

/-!
Verification of the faculty workload and scheduling application (`src/main.py`).

The embedding models the two record classes (`Course`, `Faculty`), the load
evaluator (`calculate_required_load`, `current_load`, `load_status`), the
schedule-conflict checker (`check_schedule_conflict`, including the possible
`IndexError` from `schedule.split()[0]`, modelled as `Option`), the
`add_course` handler, and the SQLite persistence layer
(`save_data_to_db` / `load_data_from_db`) over an explicit relational state.
-/

/-- `Course` record from `src/main.py`: name, year level, unit count, time-slot
string (`__init__`, lines 60-65). -/
structure Course where
  name : String
  year_level : String
  units : Int
  schedule : String
deriving DecidableEq

/-- `Faculty` record from `src/main.py`: name, classification string, admin
flag, owned course list (`__init__`, lines 67-73).  The `required_load` field
is derived from `classification` and `is_admin` at construction time and never
mutated, so it is modelled as the derived function `Faculty.required_load`. -/
structure Faculty where
  name : String
  classification : String
  is_admin : Bool
  courses : List Course
deriving DecidableEq

/-- `Faculty.calculate_required_load` (lines 75-81): full-time PhD gets base 15,
full-time MA base 18, anything else 0; an admin deduction of 12 applies to the
two full-time bases. -/
def calculate_required_load (classification : String) (is_admin : Bool) : Int :=
  if classification = "Full-time PhD" then
    15 - (if is_admin then 12 else 0)
  else if classification = "Full-time MA" then
    18 - (if is_admin then 12 else 0)
  else
    0

/-- The stored `self.required_load` field, set in `__init__` from the
classification and admin flag. -/
def Faculty.required_load (f : Faculty) : Int :=
  calculate_required_load f.classification f.is_admin

/-- `Faculty.current_load` (lines 83-84): sum of the units of the owned
courses. -/
def Faculty.current_load (f : Faculty) : Int :=
  (f.courses.map Course.units).sum

/-- `Faculty.load_status` (lines 86-93). -/
def Faculty.load_status (f : Faculty) : String :=
  let current := f.current_load
  if current < f.required_load then
    "Below required (" ++ toString (f.required_load - current) ++ " units short)"
  else if current > f.required_load then
    "Overload (" ++ toString (current - f.required_load) ++ " units excess)"
  else
    "Satisfied"

/-- Helper for Python `str.split()` with no separator: accumulate the current
run of non-whitespace characters (in reverse) and emit maximal runs, dropping
empty pieces. -/
def pySplitAux : List Char → List Char → List (List Char)
  | [], acc => if acc = [] then [] else [acc.reverse]
  | c :: cs, acc =>
    if c.isWhitespace then
      if acc = [] then pySplitAux cs [] else acc.reverse :: pySplitAux cs []
    else
      pySplitAux cs (c :: acc)

/-- Python `s.split()`: split on runs of whitespace, discarding empty pieces. -/
def pySplit (s : String) : List String :=
  (pySplitAux s.data []).map String.mk

/-- Python `s.split()[0]`, made total: `none` models the `IndexError` raised
when the split list is empty (i.e. `s` is empty or all whitespace). -/
def firstToken (s : String) : Option String :=
  (pySplit s).head?

/-- The first loop of `check_schedule_conflict` (lines 322-326): scan the same
faculty's own courses in order; an identical schedule string conflicts
immediately, and a matching year level with a matching leading day-pattern
token also conflicts.  `none` models the `IndexError` from indexing an empty
split (left operand evaluated first, as in Python). -/
def sameFacultyScan (new_course : Course) : List Course → Option Bool
  | [] => some false
  | c :: rest =>
    if c.schedule = new_course.schedule then
      some true
    else if c.year_level = new_course.year_level then
      match firstToken c.schedule with
      | none => none
      | some t1 =>
        match firstToken new_course.schedule with
        | none => none
        | some t2 =>
          if t1 = t2 then some true else sameFacultyScan new_course rest
    else
      sameFacultyScan new_course rest

/-- The second loop of `check_schedule_conflict` (lines 328-333): any course of
any other faculty member with the same year level and the exact same schedule
string conflicts. -/
def crossFacultyConflict (faculty_list : List Faculty) (faculty : Faculty)
    (new_course : Course) : Bool :=
  faculty_list.any fun other =>
    (other != faculty) && other.courses.any fun c =>
      (c.year_level == new_course.year_level) && (c.schedule == new_course.schedule)

/-- `FacultyWorkloadApp.check_schedule_conflict` (lines 320-335).  The first
loop may return `True` early (before the cross-faculty loop runs) or raise
`IndexError` (`none`); otherwise the cross-faculty loop decides. -/
def check_schedule_conflict (faculty_list : List Faculty) (faculty : Faculty)
    (new_course : Course) : Option Bool :=
  match sameFacultyScan new_course faculty.courses with
  | none => none
  | some true => some true
  | some false => some (crossFacultyConflict faculty_list faculty new_course)

/-- The outcome reported to the user by `add_course` via its dialogs. -/
inductive AddCourseOutcome
  | added
  | scheduleConflict
  | facultyNotFound
  | inputError
deriving DecidableEq

/-- Result of one `add_course` invocation: the faculty list afterwards, whether
`save_data_to_db` was called, and which dialog the caller saw. -/
structure AddCourseResult where
  faculty_list : List Faculty
  saved : Bool
  outcome : AddCourseOutcome
deriving DecidableEq

/-- Python's `next(f for f in self.faculty_list if f.name == faculty_name)`
followed by `faculty.courses.append(course)`: mutate the first faculty with the
given name by appending the course. -/
def appendCourseToFirst (faculty_list : List Faculty) (faculty_name : String)
    (course : Course) : List Faculty :=
  match faculty_list with
  | [] => []
  | f :: rest =>
    if f.name = faculty_name then
      { f with courses := f.courses ++ [course] } :: rest
    else
      f :: appendCourseToFirst rest faculty_name course

/-- `FacultyWorkloadApp.add_course` (lines 295-318).  The truthiness test
`if course_name and faculty_name` is nonemptiness of both strings; a conflict
or lookup failure leaves the list untouched and skips the save; `none` models
the uncaught `IndexError` from the conflict check. -/
def add_course (faculty_list : List Faculty) (course_name year_level : String)
    (units : Int) (schedule faculty_name : String) : Option AddCourseResult :=
  if course_name ≠ "" ∧ faculty_name ≠ "" then
    let course : Course := ⟨course_name, year_level, units, schedule⟩
    match faculty_list.find? (fun f => f.name == faculty_name) with
    | some faculty =>
      match check_schedule_conflict faculty_list faculty course with
      | none => none
      | some true => some ⟨faculty_list, false, .scheduleConflict⟩
      | some false =>
        some ⟨appendCourseToFirst faculty_list faculty_name course, true, .added⟩
    | none => some ⟨faculty_list, false, .facultyNotFound⟩
  else
    some ⟨faculty_list, false, .inputError⟩

/-- A row of the `faculty` table (schema in `create_tables`, lines 138-145). -/
structure FacultyRow where
  id : Nat
  name : String
  classification : String
  is_admin : Bool
deriving DecidableEq

/-- A row of the `courses` table (schema in `create_tables`, lines 146-156). -/
structure CourseRow where
  id : Nat
  faculty_id : Nat
  name : String
  year_level : String
  units : Int
  schedule : String
deriving DecidableEq

/-- The SQLite database state: the two tables, each in rowid order (the order
an unqualified `SELECT *` returns for rows inserted by this program). -/
structure DB where
  faculty : List FacultyRow
  courses : List CourseRow
deriving DecidableEq

/-- The course-table inserts for one faculty: each owned course becomes a row
carrying that faculty's id, with sequential autoincrement course ids. -/
def insertCourseRows (fid : Nat) : List Course → Nat → List CourseRow
  | [], _ => []
  | c :: rest, cid =>
    ⟨cid, fid, c.name, c.year_level, c.units, c.schedule⟩ :: insertCourseRows fid rest (cid + 1)

/-- The insert loop of `save_data_to_db` (lines 176-186): insert each faculty,
read back `lastrowid`, and insert its courses with that foreign key.  The two
tables keep independent autoincrement counters. -/
def saveRows : List Faculty → Nat → Nat → List FacultyRow × List CourseRow
  | [], _, _ => ([], [])
  | f :: rest, fid, cid =>
    let crs := insertCourseRows fid f.courses cid
    let tail := saveRows rest (fid + 1) (cid + f.courses.length)
    (⟨fid, f.name, f.classification, f.is_admin⟩ :: tail.1, crs ++ tail.2)

/-- `FacultyWorkloadApp.save_data_to_db` (lines 172-187): delete every row of
both tables, then reinsert the whole in-memory list; after the delete the
autoincrement ids restart from 1. -/
def save_data_to_db (faculty_list : List Faculty) : DB :=
  let rows := saveRows faculty_list 1 1
  ⟨rows.1, rows.2⟩

/-- `FacultyWorkloadApp.load_data_from_db` (lines 159-170) starting from an
empty `faculty_list`: rebuild one `Faculty` per faculty row, attaching the
course rows whose `faculty_id` matches, in table order. -/
def load_data_from_db (db : DB) : List Faculty :=
  db.faculty.map fun fr =>
    ⟨fr.name, fr.classification, fr.is_admin,
      (db.courses.filter (fun cr => cr.faculty_id == fr.id)).map
        (fun cr => ⟨cr.name, cr.year_level, cr.units, cr.schedule⟩)⟩

/-- The worked example from the spec: `Faculty("A. Reyes", "Full-time PhD",
is_admin=False)` with three 6-unit courses and one 3-unit course. -/
def exampleFaculty : Faculty :=
  ⟨"A. Reyes", "Full-time PhD", false,
    [⟨"C1", "BA 1", 6, "MW 07:40am-09:10am"⟩,
     ⟨"C2", "BA 2", 6, "MW 09:20am-10:50am"⟩,
     ⟨"C3", "BA 3", 6, "TTh 07:40am-09:10am"⟩,
     ⟨"C4", "BA 4", 3, "TTh 09:20am-10:50am"⟩]⟩

/-! ### String helpers for distinguishing the status messages -/

theorem string_data_append (a b : String) : (a ++ b).data = a.data ++ b.data := rfl

theorem below_ne_satisfied (s : String) :
    "Below required (" ++ s ++ " units short)" ≠ "Satisfied" := by
  intro h
  have h2 := congrArg String.length h
  simp only [String.length_append] at h2
  have e1 : ("Below required (" : String).length = 16 := rfl
  have e2 : (" units short)" : String).length = 13 := rfl
  have e3 : ("Satisfied" : String).length = 9 := rfl
  omega

theorem overload_ne_satisfied (s : String) :
    "Overload (" ++ s ++ " units excess)" ≠ "Satisfied" := by
  intro h
  have h2 := congrArg String.length h
  simp only [String.length_append] at h2
  have e1 : ("Overload (" : String).length = 10 := rfl
  have e2 : (" units excess)" : String).length = 14 := rfl
  have e3 : ("Satisfied" : String).length = 9 := rfl
  omega

theorem below_ne_overload (s t : String) :
    "Below required (" ++ s ++ " units short)" ≠ "Overload (" ++ t ++ " units excess)" := by
  intro h
  have h2 := congrArg (fun u => u.data.head?) h
  simp only [string_data_append] at h2
  simp only [List.cons_append, List.head?_cons, Option.some.injEq] at h2
  exact absurd h2 (by decide)

/-- C1: for every `Faculty`, `current_load` is the sum of the units of its
owned courses, and `load_status` is `"Satisfied"` iff the current load equals
the required load, the `"Below required"` message with shortfall
`required_load - current` iff current < required, and the `"Overload"` message
with excess `current - required_load` when current > required. -/
theorem load_evaluator_correct (f : Faculty) :
    f.current_load = (f.courses.map Course.units).sum
    ∧ (f.load_status = "Satisfied" ↔ f.current_load = f.required_load)
    ∧ (f.load_status =
         "Below required (" ++ toString (f.required_load - f.current_load) ++ " units short)"
        ↔ f.current_load < f.required_load)
    ∧ (f.required_load < f.current_load →
        f.load_status =
          "Overload (" ++ toString (f.current_load - f.required_load) ++ " units excess)") := by
  refine ⟨rfl, ?_, ?_, ?_⟩
  · constructor
    · intro h
      by_contra hne
      rcases lt_or_gt_of_ne hne with hlt | hgt
      · simp only [Faculty.load_status, if_pos hlt] at h
        exact below_ne_satisfied _ h
      · simp only [Faculty.load_status, if_neg (not_lt.mpr hgt.le), if_pos hgt] at h
        exact overload_ne_satisfied _ h
    · intro heq
      simp [Faculty.load_status, heq]
  · constructor
    · intro h
      by_contra hnlt
      rcases (not_lt.mp hnlt).lt_or_eq with hgt | heq
      · simp only [Faculty.load_status, if_neg hnlt, if_pos hgt] at h
        exact below_ne_overload _ _ h.symm
      · simp only [Faculty.load_status, if_neg hnlt, if_neg (not_lt.mpr heq.ge)] at h
        exact below_ne_satisfied _ h.symm
    · intro hlt
      simp only [Faculty.load_status, if_pos hlt]
  · intro hgt
    simp only [Faculty.load_status, if_neg (not_lt.mpr hgt.le), if_pos hgt]

/-- Witness for C1 at the spec's worked example: required 15, current 21,
status `Overload (6 units excess)`. -/
theorem load_evaluator_correct_witness :
    exampleFaculty.required_load < exampleFaculty.current_load
    ∧ exampleFaculty.load_status =
        "Overload ("
          ++ toString (exampleFaculty.current_load - exampleFaculty.required_load)
          ++ " units excess)" :=
  ⟨by decide, (load_evaluator_correct exampleFaculty).2.2.2 (by decide)⟩

/-- C2: the derived required load follows the fixed table: classification
`Full-time PhD` gives 15 minus 12 if the admin flag is set, `Full-time MA`
gives 18 minus 12 if the admin flag is set, and `Part-time` gives 0. -/
theorem required_load_table (f : Faculty) :
    (f.classification = "Full-time PhD" →
      f.required_load = 15 - (if f.is_admin then 12 else 0))
    ∧ (f.classification = "Full-time MA" →
      f.required_load = 18 - (if f.is_admin then 12 else 0))
    ∧ (f.classification = "Part-time" → f.required_load = 0) := by
  refine ⟨?_, ?_, ?_⟩ <;> intro h <;> rw [Faculty.required_load, h] <;>
    cases hb : f.is_admin <;> decide

/-- Witness for C2: a full-time MA admin has required load 6 = 18 - 12. -/
theorem required_load_table_witness :
    (Faculty.mk "N. Cruz" "Full-time MA" true []).classification = "Full-time MA"
    ∧ (Faculty.mk "N. Cruz" "Full-time MA" true []).required_load
        = 18 - (if (Faculty.mk "N. Cruz" "Full-time MA" true []).is_admin then 12 else 0) :=
  ⟨rfl, (required_load_table (Faculty.mk "N. Cruz" "Full-time MA" true [])).2.1 rfl⟩

/-- C7 counterexample: over the three classification values offered by the UI
combo box and both admin-flag values, the derived required load is never
negative (the admin-reduced bases are 3 and 6), so the claimed negative case
does not exist. -/
theorem required_load_never_negative_on_ui_inputs :
    0 ≤ calculate_required_load "Full-time PhD" false
    ∧ 0 ≤ calculate_required_load "Full-time PhD" true
    ∧ 0 ≤ calculate_required_load "Full-time MA" false
    ∧ 0 ≤ calculate_required_load "Full-time MA" true
    ∧ 0 ≤ calculate_required_load "Part-time" false
    ∧ 0 ≤ calculate_required_load "Part-time" true := by
  decide

/-- C7 (amended): the invariant does hold — for every classification string
(not only the three the UI offers) and every admin flag,
`calculate_required_load` returns a nonnegative value. -/
theorem required_load_nonneg (classification : String) (is_admin : Bool) :
    0 ≤ calculate_required_load classification is_admin := by
  unfold calculate_required_load
  split
  · cases is_admin <;> decide
  · split
    · cases is_admin <;> decide
    · decide

/-- C9: any classification string other than `"Full-time PhD"` and
`"Full-time MA"` falls into the `else` branch and gets required load 0,
whatever the admin flag is. -/
theorem unrecognized_classification_zero (classification : String) (is_admin : Bool)
    (h1 : classification ≠ "Full-time PhD") (h2 : classification ≠ "Full-time MA") :
    calculate_required_load classification is_admin = 0 := by
  unfold calculate_required_load
  rw [if_neg h1, if_neg h2]

/-- Witness for C9 at the unrecognized classification `"Adjunct"`. -/
theorem unrecognized_classification_zero_witness :
    calculate_required_load "Adjunct" true = 0 :=
  unrecognized_classification_zero "Adjunct" true (by decide) (by decide)

/-! ### Splitting and the conflict scan -/

theorem pySplitAux_eq_nil (l : List Char) :
    ∀ acc, pySplitAux l acc = [] ↔ acc = [] ∧ ∀ c ∈ l, c.isWhitespace := by
  induction l with
  | nil =>
    intro acc
    by_cases ha : acc = [] <;> simp [pySplitAux, ha]
  | cons c cs ih =>
    intro acc
    by_cases hw : c.isWhitespace
    · by_cases ha : acc = []
      · simp [pySplitAux, hw, ha, ih]
      · simp [pySplitAux, hw, ha]
    · simp [pySplitAux, hw, ih]

theorem firstToken_eq_none (s : String) :
    firstToken s = none ↔ ∀ c ∈ s.data, c.isWhitespace := by
  rw [firstToken, pySplit, List.head?_eq_none_iff, List.map_eq_nil_iff]
  simpa using pySplitAux_eq_nil s.data []

/-- If neither the candidate's schedule nor any existing schedule splits to an
empty token list, the same-faculty scan cannot raise `IndexError`. -/
theorem sameFacultyScan_ne_none (nc : Course) (cs : List Course)
    (hnc : firstToken nc.schedule ≠ none)
    (hcs : ∀ c ∈ cs, firstToken c.schedule ≠ none) :
    sameFacultyScan nc cs ≠ none := by
  induction cs with
  | nil => simp [sameFacultyScan]
  | cons a rest ih =>
    simp only [sameFacultyScan]
    by_cases h1 : a.schedule = nc.schedule
    · simp [h1]
    · rw [if_neg h1]
      by_cases h2 : a.year_level = nc.year_level
      · rw [if_pos h2]
        cases ht1 : firstToken a.schedule with
        | none => exact absurd ht1 (hcs a (by simp))
        | some t1 =>
          cases ht2 : firstToken nc.schedule with
          | none => exact absurd ht2 hnc
          | some t2 =>
            by_cases h3 : t1 = t2
            · simp [h3]
            · have hrest := ih (fun c hc => hcs c (by simp [hc]))
              simpa [h3] using hrest
      · rw [if_neg h2]
        exact ih (fun c hc => hcs c (by simp [hc]))

/-- Conversely, an `IndexError` in the scan pinpoints a schedule whose split is
empty: either the candidate's or that of one of the faculty's courses. -/
theorem sameFacultyScan_eq_none (nc : Course) (cs : List Course)
    (h : sameFacultyScan nc cs = none) :
    firstToken nc.schedule = none ∨ ∃ c ∈ cs, firstToken c.schedule = none := by
  induction cs with
  | nil => simp [sameFacultyScan] at h
  | cons a rest ih =>
    simp only [sameFacultyScan] at h
    by_cases h1 : a.schedule = nc.schedule
    · simp [h1] at h
    · rw [if_neg h1] at h
      by_cases h2 : a.year_level = nc.year_level
      · rw [if_pos h2] at h
        cases ht1 : firstToken a.schedule with
        | none => exact Or.inr ⟨a, by simp, ht1⟩
        | some t1 =>
          rw [ht1] at h
          cases ht2 : firstToken nc.schedule with
          | none => exact Or.inl rfl
          | some t2 =>
            rw [ht2] at h
            by_cases h3 : t1 = t2
            · simp [h3] at h
            · simp [h3] at h
              rcases ih h with h' | ⟨c, hc, hft⟩
              · rw [ht2] at h'
                exact absurd h' (by simp)
              · exact Or.inr ⟨c, by simp [hc], hft⟩
      · rw [if_neg h2] at h
        rcases ih h with h' | ⟨c, hc, hft⟩
        · exact Or.inl h'
        · exact Or.inr ⟨c, by simp [hc], hft⟩

/-- The scan reports a conflict whenever some owned course has the candidate's
exact schedule string (the year level is not consulted by that branch). -/
theorem sameFacultyScan_of_same_schedule (nc : Course) (cs : List Course) (c : Course)
    (hmem : c ∈ cs) (hs : c.schedule = nc.schedule)
    (hcs : ∀ c' ∈ cs, firstToken c'.schedule ≠ none) :
    sameFacultyScan nc cs = some true := by
  induction cs with
  | nil => simp at hmem
  | cons a rest ih =>
    simp only [sameFacultyScan]
    by_cases h1 : a.schedule = nc.schedule
    · simp [h1]
    · rw [if_neg h1]
      have hmem' : c ∈ rest := by
        rcases List.mem_cons.mp hmem with rfl | hm
        · exact absurd hs h1
        · exact hm
      have hnc : firstToken nc.schedule ≠ none := by
        rw [← hs]
        exact hcs c hmem
      by_cases h2 : a.year_level = nc.year_level
      · rw [if_pos h2]
        cases ht1 : firstToken a.schedule with
        | none => exact absurd ht1 (hcs a (by simp))
        | some t1 =>
          cases ht2 : firstToken nc.schedule with
          | none => exact absurd ht2 hnc
          | some t2 =>
            by_cases h3 : t1 = t2
            · simp [h3]
            · have hrest := ih hmem' (fun c' hc' => hcs c' (by simp [hc']))
              simpa [h3] using hrest
      · rw [if_neg h2]
        exact ih hmem' (fun c' hc' => hcs c' (by simp [hc']))

/-- The scan reports a conflict whenever some owned course matches the
candidate's year level and leading day-pattern token. -/
theorem sameFacultyScan_of_token_match (nc : Course) (cs : List Course) (c : Course)
    (t : String) (hmem : c ∈ cs) (hyear : c.year_level = nc.year_level)
    (hct : firstToken c.schedule = some t) (hnct : firstToken nc.schedule = some t)
    (hcs : ∀ c' ∈ cs, firstToken c'.schedule ≠ none) :
    sameFacultyScan nc cs = some true := by
  induction cs with
  | nil => simp at hmem
  | cons a rest ih =>
    simp only [sameFacultyScan]
    by_cases h1 : a.schedule = nc.schedule
    · simp [h1]
    · rw [if_neg h1]
      by_cases h2 : a.year_level = nc.year_level
      · rw [if_pos h2]
        cases ht1 : firstToken a.schedule with
        | none => exact absurd ht1 (hcs a (by simp))
        | some t1 =>
          rw [hnct]
          by_cases h3 : t1 = t
          · simp [h3]
          · have hmem' : c ∈ rest := by
              rcases List.mem_cons.mp hmem with rfl | hm
              · rw [hct] at ht1
                exact absurd (Option.some.inj ht1).symm h3
              · exact hm
            have hrest := ih hmem' (fun c' hc' => hcs c' (by simp [hc']))
            simpa [h3] using hrest
      · rw [if_neg h2]
        have hmem' : c ∈ rest := by
          rcases List.mem_cons.mp hmem with rfl | hm
          · exact absurd hyear h2
          · exact hm
        exact ih hmem' (fun c' hc' => hcs c' (by simp [hc']))

/-- Unfolding of the cross-faculty loop as an existence statement. -/
theorem crossFacultyConflict_eq_true (faculty_list : List Faculty) (faculty : Faculty)
    (nc : Course) :
    crossFacultyConflict faculty_list faculty nc = true ↔
      ∃ other ∈ faculty_list, other ≠ faculty ∧
        ∃ c ∈ other.courses, c.year_level = nc.year_level ∧ c.schedule = nc.schedule := by
  simp [crossFacultyConflict, List.any_eq_true, Bool.and_eq_true, bne_iff_ne, beq_iff_eq]

/-- A concrete faculty member used as a test fixture: one `BA 1` course on the
`MW 07:40am-09:10am` slot. -/
def facultyA : Faculty :=
  ⟨"A. Reyes", "Full-time PhD", false, [⟨"Algebra", "BA 1", 3, "MW 07:40am-09:10am"⟩]⟩

/-- A second concrete faculty member: one `BA 2` course on the
`TTh 07:40am-09:10am` slot. -/
def facultyB : Faculty :=
  ⟨"B. Santos", "Full-time MA", false, [⟨"Statistics", "BA 2", 3, "TTh 07:40am-09:10am"⟩]⟩

/-- C3 counterexample: a candidate `BA 2` course whose time-slot string is
identical to that of the faculty's existing `BA 1` course is declared a
conflict (`some true`), not passed (`some false`): the exact-slot branch of the
same-faculty loop fires before year levels are compared. -/
theorem distinct_year_same_slot_counterexample :
    (Course.mk "Logic" "BA 2" 3 "MW 07:40am-09:10am").year_level
        ≠ (Course.mk "Algebra" "BA 1" 3 "MW 07:40am-09:10am").year_level
    ∧ (Course.mk "Logic" "BA 2" 3 "MW 07:40am-09:10am").schedule
        = (Course.mk "Algebra" "BA 1" 3 "MW 07:40am-09:10am").schedule
    ∧ check_schedule_conflict [facultyA] facultyA
        (Course.mk "Logic" "BA 2" 3 "MW 07:40am-09:10am") = some true := by
  refine ⟨by decide, rfl, by decide⟩

/-- C3 (amended): within the same faculty an identical time-slot string always
conflicts, regardless of year level — whenever some owned course carries the
candidate's exact schedule string (and no owned schedule is empty or
all-whitespace, so the scan cannot raise `IndexError` first),
`check_schedule_conflict` returns `some true`, never `some false`. -/
theorem same_slot_same_faculty_conflicts (faculty_list : List Faculty)
    (faculty : Faculty) (nc c : Course)
    (hmem : c ∈ faculty.courses) (hs : c.schedule = nc.schedule)
    (hwf : ∀ c' ∈ faculty.courses, firstToken c'.schedule ≠ none) :
    check_schedule_conflict faculty_list faculty nc = some true := by
  unfold check_schedule_conflict
  rw [sameFacultyScan_of_same_schedule nc faculty.courses c hmem hs hwf]

/-- Witness for the amended C3 at the concrete counterexample input. -/
theorem same_slot_same_faculty_conflicts_witness :
    check_schedule_conflict [facultyA] facultyA
      (Course.mk "Logic" "BA 2" 3 "MW 07:40am-09:10am") = some true :=
  same_slot_same_faculty_conflicts [facultyA] facultyA
    (Course.mk "Logic" "BA 2" 3 "MW 07:40am-09:10am")
    (Course.mk "Algebra" "BA 1" 3 "MW 07:40am-09:10am")
    (by decide) (by decide) (by decide)

/-- C4: if some existing course of the same faculty has the candidate's year
level and the same leading whitespace-separated token of its time-slot string,
`check_schedule_conflict` returns `some true` (the time portions may differ);
the well-formedness hypothesis rules out the `IndexError` path for the
schedules the loop splits. -/
theorem same_year_day_token_conflicts (faculty_list : List Faculty)
    (faculty : Faculty) (nc c : Course) (t : String)
    (hmem : c ∈ faculty.courses) (hyear : c.year_level = nc.year_level)
    (hct : firstToken c.schedule = some t) (hnct : firstToken nc.schedule = some t)
    (hwf : ∀ c' ∈ faculty.courses, firstToken c'.schedule ≠ none) :
    check_schedule_conflict faculty_list faculty nc = some true := by
  unfold check_schedule_conflict
  rw [sameFacultyScan_of_token_match nc faculty.courses c t hmem hyear hct hnct hwf]

/-- Witness for C4: `MW 07:40am-09:10am` and `MW 09:20am-10:50am` collide on
year + day-pattern token even though the times differ. -/
theorem same_year_day_token_conflicts_witness :
    check_schedule_conflict [facultyA] facultyA
      (Course.mk "Logic" "BA 1" 3 "MW 09:20am-10:50am") = some true :=
  same_year_day_token_conflicts [facultyA] facultyA
    (Course.mk "Logic" "BA 1" 3 "MW 09:20am-10:50am")
    (Course.mk "Algebra" "BA 1" 3 "MW 07:40am-09:10am") "MW"
    (by decide) (by decide) (by decide) (by decide) (by decide)

/-- C5: across two distinct faculty members, a course of the other faculty with
the candidate's year level and exact time-slot string makes the checker report
a conflict (provided the same-faculty scan does not raise `IndexError` first);
and when the same-faculty scan passes and no other faculty's course matches
both year level and exact slot, the checker reports no conflict. -/
theorem cross_faculty_rule (faculty_list : List Faculty) (faculty other : Faculty)
    (nc c : Course) :
    (other ∈ faculty_list → other ≠ faculty → c ∈ other.courses →
      c.year_level = nc.year_level → c.schedule = nc.schedule →
      sameFacultyScan nc faculty.courses ≠ none →
      check_schedule_conflict faculty_list faculty nc = some true)
    ∧ (sameFacultyScan nc faculty.courses = some false →
      (∀ g ∈ faculty_list, g ≠ faculty →
        ∀ c' ∈ g.courses, ¬(c'.year_level = nc.year_level ∧ c'.schedule = nc.schedule)) →
      check_schedule_conflict faculty_list faculty nc = some false) := by
  constructor
  · intro hmem hne hc hyear hs hscan
    unfold check_schedule_conflict
    cases hb : sameFacultyScan nc faculty.courses with
    | none => exact absurd hb hscan
    | some b =>
      cases b with
      | true => rfl
      | false =>
        have hcross : crossFacultyConflict faculty_list faculty nc = true :=
          (crossFacultyConflict_eq_true faculty_list faculty nc).mpr
            ⟨other, hmem, hne, c, hc, hyear, hs⟩
        rw [hcross]
  · intro hscan hnone
    unfold check_schedule_conflict
    rw [hscan]
    have hcross : crossFacultyConflict faculty_list faculty nc = false := by
      rw [Bool.eq_false_iff]
      intro hcc
      obtain ⟨g, hg, hgne, c', hc', hy, hs⟩ :=
        (crossFacultyConflict_eq_true faculty_list faculty nc).mp hcc
      exact hnone g hg hgne c' hc' ⟨hy, hs⟩
    rw [hcross]

/-- Witness for C5 (first half): `facultyB`'s `BA 2` course at
`TTh 07:40am-09:10am` blocks the same year/slot combination for `facultyA`. -/
theorem cross_faculty_rule_witness :
    check_schedule_conflict [facultyA, facultyB] facultyA
      (Course.mk "Logic" "BA 2" 3 "TTh 07:40am-09:10am") = some true :=
  (cross_faculty_rule [facultyA, facultyB] facultyA facultyB
      (Course.mk "Logic" "BA 2" 3 "TTh 07:40am-09:10am")
      (Course.mk "Statistics" "BA 2" 3 "TTh 07:40am-09:10am")).1
    (by decide) (by decide) (by decide) (by decide) (by decide) (by decide)

/-- C10: the split-indexing in the conflict checker is in bounds — if the
candidate's schedule and every schedule of the faculty's own courses contain a
non-whitespace character, the checker returns a boolean; conversely the error
branch (`none`) is reachable only when the candidate's schedule or one of the
faculty's own schedules is empty or all whitespace. -/
theorem conflict_check_split_safety (faculty_list : List Faculty) (faculty : Faculty)
    (nc : Course) :
    (((∃ ch ∈ nc.schedule.data, ¬ch.isWhitespace)
        ∧ ∀ c ∈ faculty.courses, ∃ ch ∈ c.schedule.data, ¬ch.isWhitespace) →
      ∃ b, check_schedule_conflict faculty_list faculty nc = some b)
    ∧ (check_schedule_conflict faculty_list faculty nc = none →
      (∀ ch ∈ nc.schedule.data, ch.isWhitespace)
      ∨ ∃ c ∈ faculty.courses, ∀ ch ∈ c.schedule.data, ch.isWhitespace) := by
  constructor
  · rintro ⟨hnc, hcs⟩
    have hnc' : firstToken nc.schedule ≠ none := fun hno => by
      obtain ⟨ch, hch, hw⟩ := hnc
      exact hw ((firstToken_eq_none nc.schedule).mp hno ch hch)
    have hcs' : ∀ c ∈ faculty.courses, firstToken c.schedule ≠ none := by
      intro c hc hno
      obtain ⟨ch, hch, hw⟩ := hcs c hc
      exact hw ((firstToken_eq_none c.schedule).mp hno ch hch)
    have hne := sameFacultyScan_ne_none nc faculty.courses hnc' hcs'
    unfold check_schedule_conflict
    cases hb : sameFacultyScan nc faculty.courses with
    | none => exact absurd hb hne
    | some b => cases b <;> exact ⟨_, rfl⟩
  · intro h
    unfold check_schedule_conflict at h
    have hsc : sameFacultyScan nc faculty.courses = none := by
      cases hb : sameFacultyScan nc faculty.courses with
      | none => rfl
      | some b => rw [hb] at h; cases b <;> simp at h
    rcases sameFacultyScan_eq_none nc faculty.courses hsc with h1 | ⟨c, hc, h1⟩
    · exact Or.inl ((firstToken_eq_none nc.schedule).mp h1)
    · exact Or.inr ⟨c, hc, (firstToken_eq_none c.schedule).mp h1⟩

/-- Witness for C10: on well-formed slot strings the checker is total. -/
theorem conflict_check_split_safety_witness :
    ∃ b, check_schedule_conflict [facultyA] facultyA
      (Course.mk "Logic" "BA 2" 3 "TTh 02:05pm-03:35pm") = some b :=
  (conflict_check_split_safety [facultyA] facultyA
      (Course.mk "Logic" "BA 2" 3 "TTh 02:05pm-03:35pm")).1 (by decide)

/-- C8: when the conflict check reports a conflict for the candidate course,
`add_course` rejects it atomically — the returned faculty list is exactly the
input list (no course collection changed), `save_data_to_db` is not invoked,
and the caller is only shown the conflict dialog. -/
theorem add_course_conflict_atomic (faculty_list : List Faculty)
    (course_name year_level : String) (units : Int) (schedule faculty_name : String)
    (faculty : Faculty)
    (hcn : course_name ≠ "") (hfn : faculty_name ≠ "")
    (hfind : faculty_list.find? (fun f => f.name == faculty_name) = some faculty)
    (hconf : check_schedule_conflict faculty_list faculty
        (Course.mk course_name year_level units schedule) = some true) :
    add_course faculty_list course_name year_level units schedule faculty_name
      = some ⟨faculty_list, false, AddCourseOutcome.scheduleConflict⟩ := by
  simp [add_course, hcn, hfn, hfind, hconf]

/-- Witness for C8: adding a same-year, same-day-pattern course to `facultyA`
is rejected with the list unchanged and no save. -/
theorem add_course_conflict_atomic_witness :
    add_course [facultyA] "Logic" "BA 1" 3 "MW 09:20am-10:50am" "A. Reyes"
      = some ⟨[facultyA], false, AddCourseOutcome.scheduleConflict⟩ :=
  add_course_conflict_atomic [facultyA] "Logic" "BA 1" 3 "MW 09:20am-10:50am" "A. Reyes"
    facultyA (by decide) (by decide) (by decide) (by decide)

/-! ### Persistence round trip -/

theorem insertCourseRows_mem_fid (fid : Nat) (cs : List Course) :
    ∀ cid cr, cr ∈ insertCourseRows fid cs cid → cr.faculty_id = fid := by
  induction cs with
  | nil => intro cid cr h; simp [insertCourseRows] at h
  | cons c rest ih =>
    intro cid cr h
    simp only [insertCourseRows] at h
    rcases List.mem_cons.mp h with rfl | h'
    · rfl
    · exact ih (cid + 1) cr h'

/-- Restricting the course rows of one faculty to its own id and converting
back yields the original course list. -/
theorem insertCourseRows_filter_map (fid : Nat) (cs : List Course) :
    ∀ cid, ((insertCourseRows fid cs cid).filter (fun cr => cr.faculty_id == fid)).map
        (fun cr => Course.mk cr.name cr.year_level cr.units cr.schedule) = cs := by
  induction cs with
  | nil => intro cid; rfl
  | cons c rest ih =>
    intro cid
    simp [insertCourseRows, List.filter_cons, ih (cid + 1)]

/-- A different faculty id selects none of these rows. -/
theorem insertCourseRows_filter_ne (fid fid' : Nat) (h : fid ≠ fid') (cs : List Course) :
    ∀ cid, (insertCourseRows fid cs cid).filter (fun cr => cr.faculty_id == fid') = [] := by
  induction cs with
  | nil => intro cid; rfl
  | cons c rest ih =>
    intro cid
    simp [insertCourseRows, List.filter_cons, h, ih (cid + 1)]

theorem saveRows_courses_fid_ge (fs : List Faculty) :
    ∀ fid cid cr, cr ∈ (saveRows fs fid cid).2 → fid ≤ cr.faculty_id := by
  induction fs with
  | nil => intro fid cid cr h; simp [saveRows] at h
  | cons f rest ih =>
    intro fid cid cr h
    simp only [saveRows] at h
    rcases List.mem_append.mp h with h' | h'
    · exact (insertCourseRows_mem_fid fid f.courses cid cr h').ge
    · exact Nat.le_of_succ_le (ih (fid + 1) (cid + f.courses.length) cr h')

theorem saveRows_faculty_id_ge (fs : List Faculty) :
    ∀ fid cid fr, fr ∈ (saveRows fs fid cid).1 → fid ≤ fr.id := by
  induction fs with
  | nil => intro fid cid fr h; simp [saveRows] at h
  | cons f rest ih =>
    intro fid cid fr h
    simp only [saveRows] at h
    rcases List.mem_cons.mp h with rfl | h'
    · exact Nat.le_refl fid
    · exact Nat.le_of_succ_le (ih (fid + 1) (cid + f.courses.length) fr h')

/-- Generalized round trip: loading the rows written by `saveRows` starting
from any pair of fresh ids reproduces the saved list. -/
theorem load_saveRows (fs : List Faculty) :
    ∀ fid cid,
      load_data_from_db ⟨(saveRows fs fid cid).1, (saveRows fs fid cid).2⟩ = fs := by
  induction fs with
  | nil => intro fid cid; rfl
  | cons f rest ih =>
    intro fid cid
    have e1 : (saveRows (f :: rest) fid cid).1
        = ⟨fid, f.name, f.classification, f.is_admin⟩
            :: (saveRows rest (fid + 1) (cid + f.courses.length)).1 := rfl
    have e2 : (saveRows (f :: rest) fid cid).2
        = insertCourseRows fid f.courses cid
            ++ (saveRows rest (fid + 1) (cid + f.courses.length)).2 := rfl
    simp only [load_data_from_db, e1, e2, List.map_cons]
    congr 1
    · have hB : ((saveRows rest (fid + 1) (cid + f.courses.length)).2).filter
          (fun cr => cr.faculty_id == fid) = [] := by
        rw [List.filter_eq_nil_iff]
        intro cr hcr
        have hge := saveRows_courses_fid_ge rest (fid + 1) (cid + f.courses.length) cr hcr
        simp only [beq_iff_eq]
        omega
      rw [List.filter_append, hB, List.append_nil,
        insertCourseRows_filter_map fid f.courses cid]
    · have htail := ih (fid + 1) (cid + f.courses.length)
      simp only [load_data_from_db] at htail
      refine Eq.trans (List.map_congr_left ?_) htail
      intro fr hfr
      have hid := saveRows_faculty_id_ge rest (fid + 1) (cid + f.courses.length) fr hfr
      have hA : (insertCourseRows fid f.courses cid).filter
          (fun cr => cr.faculty_id == fr.id) = [] :=
        insertCourseRows_filter_ne fid fr.id (by omega) f.courses cid
      rw [List.filter_append, hA, List.nil_append]

/-- C6: `save_data_to_db` (delete-all then reinsert) followed by
`load_data_from_db` into an empty list reproduces an identical roster — the
same faculty in the same order with the same names, classifications and admin
flags, each with the same courses in the same order with the same name, year
level, units and schedule; nothing lost, nothing duplicated. -/
theorem save_load_roundtrip (faculty_list : List Faculty) :
    load_data_from_db (save_data_to_db faculty_list) = faculty_list :=
  load_saveRows faculty_list 1 1
